import Mathlib

/-!
Shallow embedding of the FloatingOrbs canvas animation from
`docs/src/pages/index.tsx` (the orb simulation-and-rendering core), together
with theorems settling the specification claims about it.

Conventions of the embedding:
* JavaScript numbers are modelled as rationals (ℚ).
* `Math.sin` is an ambient primitive of the host; it is passed in explicitly
  as a function `sinFn : ℚ → ℚ` (its defining property, range ⊆ [-1, 1], is
  taken as a hypothesis where needed).
* `Math.PI` is likewise passed in explicitly as a value `piV : ℚ`.
* `Math.random()` draws are passed in explicitly: one `RandDraws` record per
  orb, each component ranging over [0, 1) as the host guarantees.
* Colors are strings, as in the source; the regex replace used by `drawOrb`
  is modelled character-for-character on the string.
-/

/-- The `Orb` record of the source, field for field. -/
structure Orb where
  x : ℚ
  y : ℚ
  baseRadius : ℚ
  radius : ℚ
  color : String
  vx : ℚ
  vy : ℚ
  phase : ℚ
  pulseSpeed : ℚ
deriving Repr, DecidableEq

/-- The six `Math.random()` results consumed by one `createOrb` call,
in source order: x, y, vx, vy, phase, pulseSpeed. -/
structure RandDraws where
  rx : ℚ
  ry : ℚ
  rvx : ℚ
  rvy : ℚ
  rphase : ℚ
  rpulse : ℚ
deriving Repr, DecidableEq

/-- `Math.random()` returns a number in [0, 1). -/
def isUnitDraw (r : ℚ) : Prop := 0 ≤ r ∧ r < 1

/-- All six draws of a `RandDraws` record are possible `Math.random()`
results. -/
def validDraws (d : RandDraws) : Prop :=
  isUnitDraw d.rx ∧ isUnitDraw d.ry ∧ isUnitDraw d.rvx ∧ isUnitDraw d.rvy ∧
    isUnitDraw d.rphase ∧ isUnitDraw d.rpulse

/-- `createOrb` from the source:
x and y uniform over the surface, vx and vy are `(Math.random() - 0.5) * 0.4`,
phase is `Math.random() * Math.PI * 2`, pulseSpeed is
`0.006 + Math.random() * 0.006`. -/
def createOrb (piV : ℚ) (d : RandDraws) (offsetWidth offsetHeight : ℚ)
    (color : String) (baseRadius : ℚ) : Orb :=
  { x := d.rx * offsetWidth
    y := d.ry * offsetHeight
    baseRadius := baseRadius
    radius := baseRadius
    color := color
    vx := (d.rvx - 0.5) * 0.4
    vy := (d.rvy - 0.5) * 0.4
    phase := d.rphase * piV * 2
    pulseSpeed := 0.006 + d.rpulse * 0.006 }

/-- The `orbs` array literal of the source: six `createOrb` calls with the
fixed palette of colors and base radii. -/
def initOrbs (piV w h : ℚ) (d0 d1 d2 d3 d4 d5 : RandDraws) : List Orb :=
  [ createOrb piV d0 w h "rgba(139, 92, 246, 0.18)" 280
  , createOrb piV d1 w h "rgba(192, 132, 252, 0.14)" 220
  , createOrb piV d2 w h "rgba(236, 72, 153, 0.12)" 200
  , createOrb piV d3 w h "rgba(212, 175, 55, 0.08)" 180
  , createOrb piV d4 w h "rgba(99, 102, 241, 0.12)" 240
  , createOrb piV d5 w h "rgba(244, 114, 182, 0.10)" 160 ]

/-- The two sequential wraparound if-statements of `updateOrb` for one axis:
`if (v < -r) v = w + r; if (v > w + r) v = -r;` (the second test reads the
possibly already rewritten coordinate). -/
def wrapCoord (w r x : ℚ) : ℚ :=
  let x1 := if x < -r then w + r else x
  if x1 > w + r then -r else x1

/-- `updateOrb` from the source: Euler step, phase advance, radius pulse,
then wraparound of each axis against the current offset dimensions, using
the freshly recomputed radius. -/
def updateOrb (sinFn : ℚ → ℚ) (width height : ℚ) (orb : Orb) : Orb :=
  let x1 := orb.x + orb.vx
  let y1 := orb.y + orb.vy
  let phase1 := orb.phase + orb.pulseSpeed
  let radius1 := orb.baseRadius + sinFn phase1 * 30
  { orb with
    x := wrapCoord width radius1 x1
    y := wrapCoord height radius1 y1
    phase := phase1
    radius := radius1 }

/-- A sine stand-in that is identically zero, used to instantiate closed
statements (it agrees with the sine at 0, the only point those statements
sample). -/
def sinZero : ℚ → ℚ := fun _ => 0

/-- The fixed orb of the spec example behind claim C3: position (-5, 50),
radius 10 (base radius 10, phase 0, no pulsation so the radius stays 10),
velocity (-1, 0). -/
def orbC3 : Orb :=
  { x := -5, y := 50, baseRadius := 10, radius := 10
    color := "rgba(0, 0, 0, 0.10)", vx := -1, vy := 0
    phase := 0, pulseSpeed := 0 }

/-- The character class `[\d.]` of the regex in `drawOrb`. -/
def isDigitOrDot (c : Char) : Bool := c.isDigit || c == '.'

/-- `color.replace(/[\d.]+\)$/, "0.05)")` from `drawOrb`: the regex matches a
nonempty run of digits and dots followed by a closing parenthesis at the very
end of the string (the leftmost such match starts at the beginning of the
trailing digit-and-dot run); the match, when it exists, is replaced by the
literal text `0.05)`; with no match the string is returned unchanged. -/
def replaceAlpha (s : String) : String :=
  match s.data.reverse with
  | [] => s
  | c :: rest =>
    if c = ')' then
      if rest.takeWhile isDigitOrDot = [] then s
      else String.mk (rest.dropWhile isDigitOrDot).reverse ++ "0.05)"
    else s

/-- Value of a list of decimal digit characters. -/
def digitsToNat (cs : List Char) : Nat :=
  cs.foldl (fun a c => a * 10 + (c.toNat - 48)) 0

/-- Reads a decimal numeral such as `0.18` as a pair
(value scaled to an integer, scale): `"0.18"` becomes `(18, 100)`.
Returns `none` when the characters are not a plain decimal numeral. -/
def parseDecimalScaled (cs : List Char) : Option (Nat × Nat) :=
  let ip := cs.takeWhile Char.isDigit
  match cs.dropWhile Char.isDigit with
  | [] => if ip = [] then none else some (digitsToNat ip, 1)
  | c :: frac =>
    if c = '.' ∧ frac ≠ [] ∧ frac.all Char.isDigit then
      some (digitsToNat ip * 10 ^ frac.length + digitsToNat frac,
            10 ^ frac.length)
    else none

/-- Observation used to state claims about colors: the alpha component of an
`rgba(..., a)` color string, read off as the trailing decimal numeral before
the final closing parenthesis, as (scaled value, scale). -/
def alphaDigits (s : String) : Option (Nat × Nat) :=
  match s.data.reverse with
  | [] => none
  | c :: rest =>
    if c = ')' then parseDecimalScaled (rest.takeWhile isDigitOrDot).reverse
    else none

/-- One color stop of a canvas radial gradient: `addColorStop(offset, color)`. -/
structure GradientStop where
  offset : ℚ
  color : String
deriving Repr, DecidableEq

/-- The drawing work `drawOrb` issues for one orb:
`createRadialGradient(x, y, 0, x, y, radius)` with its color stops, then
`arc(x, y, radius, 0, 2π)` filled with the gradient. -/
structure DrawCmd where
  cx : ℚ
  cy : ℚ
  innerRadius : ℚ
  outerRadius : ℚ
  stops : List GradientStop
  arcRadius : ℚ
deriving Repr, DecidableEq

/-- `drawOrb` from the source, as the draw command it issues. -/
def drawOrb (orb : Orb) : DrawCmd :=
  { cx := orb.x
    cy := orb.y
    innerRadius := 0
    outerRadius := orb.radius
    stops := [ ⟨0, orb.color⟩
             , ⟨0.5, replaceAlpha orb.color⟩
             , ⟨1, "transparent"⟩ ]
    arcRadius := orb.radius }

/-- State of the animation-scheduling lifecycle: whether the resize listener
is currently registered, whether an animation frame callback is queued with
the host, and how many frame callbacks have executed. -/
structure LoopState where
  resizeListenerAdded : Bool
  frameQueued : Bool
  framesExecuted : Nat
deriving Repr, DecidableEq

/-- Effect of one execution of the `animate` callback body on the scheduling
state: the frame runs (tick + render of every orb) and its final statement
`requestAnimationFrame(animate)` queues the next callback. -/
def runAnimateCallback (s : LoopState) : LoopState :=
  { s with framesExecuted := s.framesExecuted + 1, frameQueued := true }

/-- The direct `animate()` call at the end of the effect body. -/
def startLoop (s : LoopState) : LoopState := runAnimateCallback s

/-- The cleanup function returned by the effect in the source. Its entire
body is `window.removeEventListener("resize", setCanvasSize)`; it does not
touch the queued animation frame (no `cancelAnimationFrame` appears anywhere
in the source, and the request id is never stored). -/
def effectCleanup (s : LoopState) : LoopState :=
  { s with resizeListenerAdded := false }

/-- The host firing the queued animation frame, if one is queued: the queued
callback is `animate`, so it executes and re-queues itself. -/
def fireQueuedFrame (s : LoopState) : LoopState :=
  if s.frameQueued then runAnimateCallback s else s

/-- Scheduling state right after a successful mount: the resize listener has
been added and `animate()` has run once, queueing the next frame. -/
def mountedLoop : LoopState :=
  startLoop { resizeListenerAdded := true, frameQueued := false
              framesExecuted := 0 }

/-- The canvas geometry seen by the core: CSS layout size (`offsetWidth`,
`offsetHeight`, the dimensions read by `updateOrb`), backing-store pixel size
(`width`, `height`) and the accumulated context transform scale. -/
structure CanvasState where
  offsetWidth : ℚ
  offsetHeight : ℚ
  width : ℚ
  height : ℚ
  scaleX : ℚ
  scaleY : ℚ
deriving Repr, DecidableEq

/-- `setCanvasSize` from the source: sets the backing-store size to the
layout size times the device pixel ratio and applies `ctx.scale(dpr, dpr)`
(which multiplies into the current transform). -/
def setCanvasSize (dpr : ℚ) (c : CanvasState) : CanvasState :=
  { c with width := c.offsetWidth * dpr
           height := c.offsetHeight * dpr
           scaleX := c.scaleX * dpr
           scaleY := c.scaleY * dpr }

/-- The mutable state owned by the effect: the canvas and the orb array. -/
structure Scene where
  canvas : CanvasState
  orbs : List Orb
deriving Repr, DecidableEq

/-- A window resize event: the layout engine gives the canvas its new layout
dimensions, then the registered listener `setCanvasSize` runs. -/
def handleResize (newOffsetW newOffsetH dpr : ℚ) (s : Scene) : Scene :=
  let relaidOut : CanvasState :=
    { s.canvas with offsetWidth := newOffsetW, offsetHeight := newOffsetH }
  { s with canvas := setCanvasSize dpr relaidOut }

/-- The work done on the orb array by one `animate` callback, in source
order: `orbs.forEach((orb) => { updateOrb(orb); drawOrb(orb); })` — each orb
is updated and then immediately drawn (in its post-update state) before the
next orb is touched. Returns the updated orbs and the draw commands in the
order they were issued. -/
def animateFrame (sinFn : ℚ → ℚ) (w h : ℚ) : List Orb → List Orb × List DrawCmd
  | [] => ([], [])
  | o :: rest =>
    let o2 := updateOrb sinFn w h o
    let p := animateFrame sinFn w h rest
    (o2 :: p.1, drawOrb o2 :: p.2)

/-- The two-phase form of a frame as the spec words it: first advance every
orb by one tick (`OrbField.tick()`), then render every orb of the updated
field in field order (`renderFrame()`). Stated from the spec for comparison
with `animateFrame`. -/
def tickThenRenderAll (sinFn : ℚ → ℚ) (w h : ℚ) (orbs : List Orb) :
    List Orb × List DrawCmd :=
  (orbs.map (updateOrb sinFn w h),
   (orbs.map (updateOrb sinFn w h)).map drawOrb)

/-- Effects performed by the mount (the effect body) visible from outside:
which orbs were created, whether the resize listener was added, whether the
animation loop was started. -/
structure MountEffects where
  orbsCreated : List Orb
  resizeListenerAdded : Bool
  loopStarted : Bool
deriving Repr, DecidableEq

/-- The absence of any mount effect. -/
def noEffects : MountEffects :=
  { orbsCreated := [], resizeListenerAdded := false, loopStarted := false }

/-- The effect body from the source: `if (!canvas) return;` then
`if (!ctx) return;` (where `ctx = canvas.getContext("2d")` may be null);
only past both guards does it size the canvas, register the listener,
create the six orbs and start the loop. -/
def mountEffect (canvasAvailable ctxAvailable : Bool) (piV w h : ℚ)
    (d0 d1 d2 d3 d4 d5 : RandDraws) : MountEffects :=
  if !canvasAvailable then noEffects
  else if !ctxAvailable then noEffects
  else
    { orbsCreated := initOrbs piV w h d0 d1 d2 d3 d4 d5
      resizeListenerAdded := true
      loopStarted := true }

/-- A concrete orb for closed instances: the first palette color, base
radius 280, placed at (100, 120). -/
def orbVioletDemo : Orb :=
  { x := 100, y := 120, baseRadius := 280, radius := 280
    color := "rgba(139, 92, 246, 0.18)", vx := 1/10, vy := -(1/10)
    phase := 0, pulseSpeed := 1/100 }

example : (updateOrb sinZero 800 600 orbC3).x = -6 := by
  norm_num [updateOrb, wrapCoord, orbC3, sinZero]
example : ((fun o => updateOrb sinZero 800 600 o)^[6] orbC3).x = 810 := by
  norm_num [Function.iterate_succ_apply, updateOrb, wrapCoord, orbC3, sinZero]
example : alphaDigits "rgba(139, 92, 246, 0.18)" = some (18, 100) := by decide
example : alphaDigits (replaceAlpha "rgba(139, 92, 246, 0.18)") =
    some (5, 100) := by decide

/-- Draws that are all one half: a possible result of six `Math.random()`
calls, used to instantiate hypotheses at a concrete input. -/
def halfDraws : RandDraws := ⟨1/2, 1/2, 1/2, 1/2, 1/2, 1/2⟩

/-- Draws that are all zero: `Math.random()` can return 0 (its range is
[0, 1)), so this is a possible result of six calls. -/
def zeroDraws : RandDraws := ⟨0, 0, 0, 0, 0, 0⟩

/-- Claim C1 (code-bug evidence): after the effect cleanup runs, the
animation frame queued by the last `animate` call is still queued — the
cleanup body only removes the resize listener and never cancels the queued
frame — so when the host fires it, a further frame callback executes and
re-queues itself; a second cleanup call changes nothing further. -/
theorem frame_executes_after_cleanup :
    (effectCleanup mountedLoop).frameQueued = true
    ∧ (effectCleanup mountedLoop).resizeListenerAdded = false
    ∧ (fireQueuedFrame (effectCleanup mountedLoop)).framesExecuted
        = (effectCleanup mountedLoop).framesExecuted + 1
    ∧ (fireQueuedFrame (effectCleanup mountedLoop)).frameQueued = true
    ∧ effectCleanup (effectCleanup mountedLoop) = effectCleanup mountedLoop := by
  decide

/-- Claim C3 (counterexample): for the fixed orb of the claim (x = -5,
radius 10, vx = -1) with width 800, one tick moves x to -6, but -6 does not
satisfy the wraparound condition x < -radius (that is, -6 < -10 is false),
so no wraparound fires and x is -6 after the tick, not 810. -/
theorem updateOrb_c3_no_wrap_at_minus_six :
    (updateOrb sinZero 800 600 orbC3).x = -6
    ∧ (updateOrb sinZero 800 600 orbC3).radius = 10
    ∧ ¬((updateOrb sinZero 800 600 orbC3).x
          < -(updateOrb sinZero 800 600 orbC3).radius)
    ∧ (updateOrb sinZero 800 600 orbC3).x ≠ 810 := by
  norm_num [updateOrb, wrapCoord, orbC3, sinZero]

/-- Claim C3 (amended): for the fixed orb (position x = -5, radius 10,
velocity vx = -1, width 800), one tick moves x to -6, which does not yet
satisfy the wraparound condition x < -radius; wraparound fires only once x
crosses below -radius: after five ticks x is -10 (still not wrapped), and on
the sixth tick x reaches -11 < -10 and the rule sets x to
width + radius = 810. -/
theorem updateOrb_c3_wrap_on_sixth_tick :
    (updateOrb sinZero 800 600 orbC3).x = -6
    ∧ ((fun o => updateOrb sinZero 800 600 o)^[5] orbC3).x = -10
    ∧ ((fun o => updateOrb sinZero 800 600 o)^[6] orbC3).x = 810 := by
  norm_num [Function.iterate_succ_apply, updateOrb, wrapCoord, orbC3, sinZero]

/-- Claim C7: a resize event rewrites only the stored canvas dimensions (and
the context scale); the orb array — every field of every orb — is untouched,
and the layout dimensions that subsequent ticks read for the wraparound rule
become exactly the new values. -/
theorem handleResize_preserves_orbs (newW newH dpr : ℚ) (s : Scene) :
    (handleResize newW newH dpr s).orbs = s.orbs
    ∧ (handleResize newW newH dpr s).canvas.offsetWidth = newW
    ∧ (handleResize newW newH dpr s).canvas.offsetHeight = newH :=
  ⟨rfl, rfl, rfl⟩

/-- Claim C8: the source frame callback interleaves update and draw per orb;
it produces the same updated orb array and the same sequence of draw
commands as the two-phase form of the spec (tick every orb, then render
every orb of the updated field in order), because each update and draw
depends only on the one orb it is given. -/
theorem animateFrame_eq_tickThenRenderAll (sinFn : ℚ → ℚ) (w h : ℚ)
    (orbs : List Orb) :
    animateFrame sinFn w h orbs = tickThenRenderAll sinFn w h orbs := by
  induction orbs with
  | nil => rfl
  | cons o rest ih => simp [animateFrame, tickThenRenderAll, ih]

/-- Claim C9: when the canvas or its 2D rendering context is unavailable at
mount time, the effect body performs no work at all — no orbs are created,
no resize listener is added, no animation loop is started — and it returns
normally (the model is a total function). -/
theorem mountEffect_no_work (cv cx : Bool) (piV w h : ℚ)
    (d0 d1 d2 d3 d4 d5 : RandDraws)
    (hmiss : cv = false ∨ cx = false) :
    mountEffect cv cx piV w h d0 d1 d2 d3 d4 d5 = noEffects := by
  rcases hmiss with h | h <;> subst h <;> simp [mountEffect]

/-- Witness for C9 at a concrete input: a present canvas whose 2D context is
unavailable yields no effects. -/
theorem mountEffect_no_work_witness :
    mountEffect true false (157/50) 800 600
      halfDraws halfDraws halfDraws halfDraws halfDraws halfDraws
      = noEffects :=
  mountEffect_no_work true false (157/50) 800 600
    halfDraws halfDraws halfDraws halfDraws halfDraws halfDraws
    (Or.inr rfl)

/-- Claim C10: with nonnegative surface extent and nonnegative radius the
per-axis wraparound correction is idempotent, and at most one of its two
branches fires: a coordinate below -r is sent to w + r, which the second
branch then leaves alone (w + r > w + r is false), and a coordinate above
w + r is sent to -r, which does not satisfy the first branch condition. -/
theorem wrapCoord_idempotent (w r x : ℚ) (hw : 0 ≤ w) (hr : 0 ≤ r) :
    wrapCoord w r (wrapCoord w r x) = wrapCoord w r x
    ∧ (x < -r → wrapCoord w r x = w + r)
    ∧ (¬x < -r → x > w + r → wrapCoord w r x = -r) := by
  have hwrap : ∀ y : ℚ, wrapCoord w r y =
      if y < -r then w + r else if y > w + r then -r else y := by
    intro y
    unfold wrapCoord
    dsimp only
    split_ifs <;> first | rfl | linarith
  refine ⟨?_, fun hx => by rw [hwrap, if_pos hx],
    fun hx1 hx2 => by rw [hwrap, if_neg hx1, if_pos hx2]⟩
  rw [hwrap x]
  split_ifs with h1 h2
  · rw [hwrap, if_neg (by linarith : ¬(w + r) < -r),
      if_neg (by linarith : ¬(w + r) > w + r)]
  · rw [hwrap, if_neg (by linarith : ¬(-r) < -r),
      if_neg (by linarith : ¬(-r) > w + r)]
  · rw [hwrap, if_neg h1, if_neg h2]

/-- Witness for C10 at a concrete input: width 800, radius 10, coordinate
-500 (which wraps to 810, on which the correction is then the identity). -/
theorem wrapCoord_idempotent_witness :
    wrapCoord 800 10 (wrapCoord 800 10 (-500)) = wrapCoord 800 10 (-500)
    ∧ ((-500 : ℚ) < -10 → wrapCoord 800 10 (-500) = 800 + 10)
    ∧ (¬(-500 : ℚ) < -10 → (-500 : ℚ) > 800 + 10 →
        wrapCoord 800 10 (-500) = -10) :=
  wrapCoord_idempotent 800 10 (-500) (by norm_num) (by norm_num)

/-- With nonnegative surface extent and nonnegative radius, the corrected
coordinate lies in [-r, w + r]. -/
lemma wrapCoord_bounds (w r x : ℚ) (hw : 0 ≤ w) (hr : 0 ≤ r) :
    -r ≤ wrapCoord w r x ∧ wrapCoord w r x ≤ w + r := by
  unfold wrapCoord
  dsimp only
  split_ifs <;> constructor <;> linarith

/-- Claim C4: after one tick, every orb position lies within the wraparound
bounds measured with the post-pulse radius: -radius ≤ x ≤ width + radius and
-radius ≤ y ≤ height + radius, provided the surface dimensions are
nonnegative, the sine primitive has range within [-1, 1], and the base
radius is at least 30 (so the pulsing radius stays nonnegative; every
palette base radius is ≥ 160). -/
theorem updateOrb_position_in_bounds (sinFn : ℚ → ℚ) (w h : ℚ) (o : Orb)
    (hw : 0 ≤ w) (hh : 0 ≤ h)
    (hsin : ∀ t, -1 ≤ sinFn t ∧ sinFn t ≤ 1)
    (hbase : 30 ≤ o.baseRadius) :
    -(updateOrb sinFn w h o).radius ≤ (updateOrb sinFn w h o).x
    ∧ (updateOrb sinFn w h o).x ≤ w + (updateOrb sinFn w h o).radius
    ∧ -(updateOrb sinFn w h o).radius ≤ (updateOrb sinFn w h o).y
    ∧ (updateOrb sinFn w h o).y ≤ h + (updateOrb sinFn w h o).radius := by
  have hs := hsin (o.phase + o.pulseSpeed)
  have hr : 0 ≤ o.baseRadius + sinFn (o.phase + o.pulseSpeed) * 30 := by
    nlinarith [hs.1]
  simp only [updateOrb]
  exact ⟨(wrapCoord_bounds w _ (o.x + o.vx) hw hr).1,
    (wrapCoord_bounds w _ (o.x + o.vx) hw hr).2,
    (wrapCoord_bounds h _ (o.y + o.vy) hh hr).1,
    (wrapCoord_bounds h _ (o.y + o.vy) hh hr).2⟩

/-- Witness for C4 at a concrete input: the first palette orb placed at
(100, 120) on an 800 by 600 surface, with the zero sine stand-in. -/
theorem updateOrb_position_in_bounds_witness :
    -(updateOrb sinZero 800 600 orbVioletDemo).radius
        ≤ (updateOrb sinZero 800 600 orbVioletDemo).x
    ∧ (updateOrb sinZero 800 600 orbVioletDemo).x
        ≤ 800 + (updateOrb sinZero 800 600 orbVioletDemo).radius
    ∧ -(updateOrb sinZero 800 600 orbVioletDemo).radius
        ≤ (updateOrb sinZero 800 600 orbVioletDemo).y
    ∧ (updateOrb sinZero 800 600 orbVioletDemo).y
        ≤ 600 + (updateOrb sinZero 800 600 orbVioletDemo).radius :=
  updateOrb_position_in_bounds sinZero 800 600 orbVioletDemo
    (by norm_num) (by norm_num) (fun t => by norm_num [sinZero])
    (by norm_num [orbVioletDemo])

/-- Claim C5: the tick leaves baseRadius unchanged, and the radius it
computes (baseRadius + 30 · sin(phase)) lies within
[baseRadius - 30, baseRadius + 30], given that the sine primitive has range
within [-1, 1]. -/
theorem updateOrb_radius_bounds (sinFn : ℚ → ℚ) (w h : ℚ) (o : Orb)
    (hsin : ∀ t, -1 ≤ sinFn t ∧ sinFn t ≤ 1) :
    (updateOrb sinFn w h o).baseRadius = o.baseRadius
    ∧ o.baseRadius - 30 ≤ (updateOrb sinFn w h o).radius
    ∧ (updateOrb sinFn w h o).radius ≤ o.baseRadius + 30 := by
  have hs := hsin (o.phase + o.pulseSpeed)
  refine ⟨rfl, ?_, ?_⟩
  · simp only [updateOrb]
    nlinarith [hs.1]
  · simp only [updateOrb]
    nlinarith [hs.2]

/-- Witness for C5 at a concrete input. -/
theorem updateOrb_radius_bounds_witness :
    (updateOrb sinZero 800 600 orbVioletDemo).baseRadius
        = orbVioletDemo.baseRadius
    ∧ orbVioletDemo.baseRadius - 30
        ≤ (updateOrb sinZero 800 600 orbVioletDemo).radius
    ∧ (updateOrb sinZero 800 600 orbVioletDemo).radius
        ≤ orbVioletDemo.baseRadius + 30 :=
  updateOrb_radius_bounds sinZero 800 600 orbVioletDemo
    (fun t => by norm_num [sinZero])

/-- The ranges a freshly created orb satisfies (stated with the literal
rationals of the source: 1/5 = 0.2, 3/500 = 0.006, 3/250 = 0.012). The
velocity intervals are half-open on the right because `Math.random()` ranges
over [0, 1). -/
def orbInitRanges (piV w h : ℚ) (o : Orb) : Prop :=
  (0 ≤ o.x ∧ o.x < w) ∧ (0 ≤ o.y ∧ o.y < h)
    ∧ (-(1/5) ≤ o.vx ∧ o.vx < 1/5) ∧ (-(1/5) ≤ o.vy ∧ o.vy < 1/5)
    ∧ (0 ≤ o.phase ∧ o.phase < 2 * piV)
    ∧ (3/500 ≤ o.pulseSpeed ∧ o.pulseSpeed ≤ 3/250)

/-- One `createOrb` call lands in the ranges, for every valid draw. -/
lemma createOrb_in_ranges (piV w h : ℚ) (d : RandDraws) (c : String) (br : ℚ)
    (hpi : 0 < piV) (hw : 0 < w) (hh : 0 < h) (hd : validDraws d) :
    orbInitRanges piV w h (createOrb piV d w h c br) := by
  obtain ⟨hx, hy, hvx, hvy, hph, hpu⟩ := hd
  unfold isUnitDraw at hx hy hvx hvy hph hpu
  unfold orbInitRanges createOrb
  refine ⟨⟨mul_nonneg hx.1 hw.le, ?_⟩, ⟨mul_nonneg hy.1 hh.le, ?_⟩,
    ⟨by nlinarith [hvx.1], by nlinarith [hvx.2]⟩,
    ⟨by nlinarith [hvy.1], by nlinarith [hvy.2]⟩,
    ⟨mul_nonneg (mul_nonneg hph.1 hpi.le) (by norm_num), ?_⟩,
    ⟨by nlinarith [hpu.1], by nlinarith [hpu.2]⟩⟩
  · nlinarith [mul_lt_mul_of_pos_right hx.2 hw]
  · nlinarith [mul_lt_mul_of_pos_right hy.2 hh]
  · nlinarith [mul_lt_mul_of_pos_right hph.2 hpi]

/-- Claim C6 (amended): initializing with the fixed 6-entry palette yields
exactly 6 orbs, and for every possible valid draw of the random source each
orb has position in [0, width) × [0, height), velocity components in
[-0.2, 0.2) (half-open: the draw 0 gives exactly -0.2), phase in [0, 2π),
and pulseSpeed in [0.006, 0.012]. -/
theorem initOrbs_count_and_ranges (piV w h : ℚ)
    (d0 d1 d2 d3 d4 d5 : RandDraws)
    (hpi : 0 < piV) (hw : 0 < w) (hh : 0 < h)
    (h0 : validDraws d0) (h1 : validDraws d1) (h2 : validDraws d2)
    (h3 : validDraws d3) (h4 : validDraws d4) (h5 : validDraws d5) :
    (initOrbs piV w h d0 d1 d2 d3 d4 d5).length = 6
    ∧ ∀ o ∈ initOrbs piV w h d0 d1 d2 d3 d4 d5, orbInitRanges piV w h o := by
  refine ⟨rfl, ?_⟩
  intro o ho
  simp only [initOrbs, List.mem_cons, List.not_mem_nil, or_false] at ho
  rcases ho with rfl | rfl | rfl | rfl | rfl | rfl <;>
    exact createOrb_in_ranges piV w h _ _ _ hpi hw hh (by assumption)

/-- Witness for C6 at a concrete input: all six draws equal to one half, a
rational stand-in for π, and an 800 by 600 surface. -/
theorem initOrbs_count_and_ranges_witness :
    (initOrbs (157/50) 800 600 halfDraws halfDraws halfDraws halfDraws
        halfDraws halfDraws).length = 6
    ∧ ∀ o ∈ initOrbs (157/50) 800 600 halfDraws halfDraws halfDraws halfDraws
        halfDraws halfDraws, orbInitRanges (157/50) 800 600 o := by
  have hv : validDraws halfDraws := by
    unfold validDraws isUnitDraw halfDraws
    norm_num
  exact initOrbs_count_and_ranges (157/50) 800 600 _ _ _ _ _ _
    (by norm_num) (by norm_num) (by norm_num) hv hv hv hv hv hv

/-- Claim C6 (counterexample): the all-zero draw is a possible result of
`Math.random()` (its range is [0, 1)), and it gives the created orb the
velocity component vx = (0 - 0.5) · 0.4 = -0.2 exactly, which does not lie
in the open interval (-0.2, 0.2) the claim states. -/
theorem createOrb_velocity_hits_boundary :
    validDraws zeroDraws
    ∧ (createOrb (157/50) zeroDraws 800 600
        "rgba(139, 92, 246, 0.18)" 280).vx = -(1/5)
    ∧ ¬(-(1/5) < (createOrb (157/50) zeroDraws 800 600
          "rgba(139, 92, 246, 0.18)" 280).vx
        ∧ (createOrb (157/50) zeroDraws 800 600
            "rgba(139, 92, 246, 0.18)" 280).vx < 1/5) := by
  refine ⟨?_, ?_, ?_⟩
  · unfold validDraws isUnitDraw zeroDraws
    norm_num
  · norm_num [createOrb, zeroDraws]
  · norm_num [createOrb, zeroDraws]

/-- takeWhile and dropWhile across an append whose first part satisfies the
predicate throughout and whose second part starts with a failing element (or
is empty). -/
lemma takeWhile_dropWhile_append (p : Char → Bool) (l1 l2 : List Char)
    (h1 : ∀ a ∈ l1, p a = true)
    (h2 : ∀ b, l2.head? = some b → p b = false) :
    (l1 ++ l2).takeWhile p = l1 ∧ (l1 ++ l2).dropWhile p = l2 := by
  induction l1 with
  | nil =>
    simp only [List.nil_append]
    cases l2 with
    | nil => simp
    | cons b t =>
      have hb := h2 b rfl
      simp [List.takeWhile_cons, List.dropWhile_cons, hb]
  | cons a t ih =>
    have ha := h1 a (by simp)
    have iht := ih (fun x hx => h1 x (by simp [hx]))
    simp [List.takeWhile_cons, List.dropWhile_cons, ha, iht.1, iht.2]

/-- `replaceAlpha` on a string whose reversed characters start with a
closing parenthesis followed by a nonempty digit-and-dot run. -/
lemma replaceAlpha_rev_cons (s : String) (rest : List Char)
    (hs : s.data.reverse = ')' :: rest)
    (hrun : rest.takeWhile isDigitOrDot ≠ []) :
    replaceAlpha s
      = String.mk (rest.dropWhile isDigitOrDot).reverse ++ "0.05)" := by
  unfold replaceAlpha
  rw [hs]
  simp [hrun]

/-- The regex replace of `drawOrb` on a well-formed color: a string of the
shape `pre ++ alphaStr ++ ")"`, with `alphaStr` a nonempty run of digits and
dots and `pre` not ending in a digit or dot, becomes `pre ++ "0.05)"` — the
alpha text is replaced by the fixed literal `0.05`. -/
lemma replaceAlpha_decomposed (pre alphaStr : String)
    (hne : alphaStr.data ≠ [])
    (hdig : ∀ c ∈ alphaStr.data, isDigitOrDot c = true)
    (hpre : pre.data.getLast?.map isDigitOrDot ≠ some true) :
    replaceAlpha (pre ++ alphaStr ++ ")") = pre ++ "0.05)" := by
  have hdata : (pre ++ alphaStr ++ ")").data.reverse
      = ')' :: (alphaStr.data.reverse ++ pre.data.reverse) := by
    simp [String.data_append]
  have hlast : ∀ b, pre.data.reverse.head? = some b → isDigitOrDot b = false := by
    intro b hb
    rw [List.head?_reverse] at hb
    rw [hb] at hpre
    simpa using hpre
  have htd := takeWhile_dropWhile_append isDigitOrDot
      alphaStr.data.reverse pre.data.reverse
      (fun a ha => hdig a (List.mem_reverse.mp ha)) hlast
  have hrun : (alphaStr.data.reverse ++ pre.data.reverse).takeWhile
      isDigitOrDot ≠ [] := by
    rw [htd.1]
    simpa using hne
  rw [replaceAlpha_rev_cons (pre ++ alphaStr ++ ")") _ hdata hrun, htd.2,
    List.reverse_reverse]

/-- Claim C2 (amended): for every orb whose color is a well-formed
`rgba(..., a)` string (a prefix not ending in a digit or dot, then a
nonempty decimal alpha numeral, then a closing parenthesis), the radial
gradient `drawOrb` paints has exactly three stops — the orb color at offset
0, the orb color with its alpha text replaced by the fixed value 0.05 at
offset 0.5, and the fully transparent color at offset 1 — over a disc of
radius equal to the orb's current radius centered at the orb's position
(gradient from inner radius 0 to the orb radius, arc of the orb radius). -/
theorem drawOrb_gradient_spec (o : Orb) (pre alphaStr : String)
    (hcolor : o.color = pre ++ alphaStr ++ ")")
    (hne : alphaStr.data ≠ [])
    (hdig : ∀ c ∈ alphaStr.data, isDigitOrDot c = true)
    (hpre : pre.data.getLast?.map isDigitOrDot ≠ some true) :
    (drawOrb o).stops
      = [⟨0, o.color⟩, ⟨1/2, pre ++ "0.05)"⟩, ⟨1, "transparent"⟩]
    ∧ (drawOrb o).cx = o.x ∧ (drawOrb o).cy = o.y
    ∧ (drawOrb o).innerRadius = 0
    ∧ (drawOrb o).outerRadius = o.radius
    ∧ (drawOrb o).arcRadius = o.radius := by
  refine ⟨?_, rfl, rfl, rfl, rfl, rfl⟩
  simp only [drawOrb]
  rw [hcolor, replaceAlpha_decomposed pre alphaStr hne hdig hpre]
  norm_num

/-- Witness for C2 (amended) at a concrete input: the first palette orb,
whose color decomposes with prefix `rgba(139, 92, 246, ` and alpha `0.18`;
its midpoint stop is `rgba(139, 92, 246, 0.05)`. -/
theorem drawOrb_gradient_spec_witness :
    (drawOrb orbVioletDemo).stops
      = [⟨0, orbVioletDemo.color⟩, ⟨1/2, "rgba(139, 92, 246, " ++ "0.05)"⟩,
         ⟨1, "transparent"⟩]
    ∧ (drawOrb orbVioletDemo).cx = orbVioletDemo.x
    ∧ (drawOrb orbVioletDemo).cy = orbVioletDemo.y
    ∧ (drawOrb orbVioletDemo).innerRadius = 0
    ∧ (drawOrb orbVioletDemo).outerRadius = orbVioletDemo.radius
    ∧ (drawOrb orbVioletDemo).arcRadius = orbVioletDemo.radius :=
  drawOrb_gradient_spec orbVioletDemo "rgba(139, 92, 246, " "0.18"
    (by decide) (by decide) (by decide) (by decide)

/-- Claim C2 (counterexample): for the first palette color the original
alpha is 0.18 and the painted midpoint alpha is 0.05; 0.05 is not roughly
5% of 0.18 — it exceeds even 10% of it (0.018), more than five times the
claimed value — so the midpoint stop is not the orb color at roughly 5% of
its original opacity. -/
theorem drawOrb_mid_alpha_not_five_percent_of_original :
    alphaDigits orbVioletDemo.color = some (18, 100)
    ∧ ((drawOrb orbVioletDemo).stops.map fun st => alphaDigits st.color)
        = [some (18, 100), some (5, 100), none]
    ∧ ¬((5 : ℚ)/100 ≤ (10/100) * (18/100)) := by
  refine ⟨by decide, by decide, by norm_num⟩
